import Mathlib

/-!
Verification of the birdcam pipeline against its specification.

This file gives a shallow embedding, in Lean 4, of the parts of the birdcam
repository that the specification's claims are about:

* `find_birds.py`: the false-positive filter `detect_false_positives`, the
  interval-merging loop and clip-saving loop of `group_and_save_clips`, the
  frame-index computation of `extract_frames`, and the error handling of
  `combine_clips_ffmpeg`;
* `birdcam_continuous_pipeline.py`: the daily aggregation control flow
  (`process_daily_combined_file`, `process_and_upload_daily_combined_file`),
  the per-file processing loop (`process_new_files`), and the publish-delay
  counter logic of `process_and_upload_hourly_combined_file`;
* `birdcam_incremental_processor.py`: its `process_files` and
  `process_daily_combined_file`;
* `birdcam_pipeline.py`: the control flow of `process_videos_from_day`;
* `birdcam_pipeline_single.py`: `process_single_video`.

Python floats are modelled as rationals (plus an explicit NaN value where the
code tests for NaN); external effects (filesystem, ffmpeg, the SQLite catalog,
uploads) are modelled by explicit environment records describing the outcome
of each external step, and the functions return explicit event traces and
resulting states.
-/

namespace Birdcam

/-! ### Python scalar values -/

/-- A Python float as it reaches `detect_false_positives`: either NaN or a
finite value (modelled as a rational).  The code only ever tests `np.isnan`
and performs arithmetic/comparisons on the finite values. -/
inductive PyFloat where
  | nan : PyFloat
  | val (q : ℚ) : PyFloat
deriving DecidableEq

/-- Model of `np.isnan` on one value. -/
def PyFloat.isnan : PyFloat → Bool
  | .nan => true
  | .val _ => false

/-- The rational carried by a finite `PyFloat` (never used on NaN by the
modelled code: the NaN check precedes every arithmetic use). -/
def PyFloat.toRat : PyFloat → ℚ
  | .nan => 0
  | .val q => q

/-- Python `int(q)` on a float: truncation toward zero. -/
def pyInt (q : ℚ) : ℤ :=
  if 0 ≤ q then ⌊q⌋ else ⌈q⌉

/-! ### detect_false_positives (find_birds.py, lines 83-109) -/

/-- A bounding box `xmin, ymin, xmax, ymax` as handed to
`detect_false_positives`. -/
structure Box where
  xmin : PyFloat
  ymin : PyFloat
  xmax : PyFloat
  ymax : PyFloat
deriving DecidableEq

/-- Shallow embedding of `detect_false_positives` (find_birds.py, lines
83-109).  In source order: (1) return True if any coordinate is NaN;
(2) return True if width or height is `<= 0`; (3) return True if the aspect
ratio `(x2-x1)/(y2-y1)` is `< 0.25` or `> 4.0` AND (`x2-x1 < 65` OR
`y2-y1 < 65`); otherwise return False. -/
def detect_false_positives (b : Box) : Bool :=
  if b.xmin.isnan = true ∨ b.ymin.isnan = true ∨ b.xmax.isnan = true ∨ b.ymax.isnan = true then
    true
  else if b.xmax.toRat - b.xmin.toRat ≤ 0 ∨ b.ymax.toRat - b.ymin.toRat ≤ 0 then
    true
  else if ((b.xmax.toRat - b.xmin.toRat) / (b.ymax.toRat - b.ymin.toRat) < 1/4 ∨
           4 < (b.xmax.toRat - b.xmin.toRat) / (b.ymax.toRat - b.ymin.toRat)) ∧
          (b.xmax.toRat - b.xmin.toRat < 65 ∨ b.ymax.toRat - b.ymin.toRat < 65) then
    true
  else
    false

/-- The false-positive condition exactly as worded by the specification and by
claim C3: aspect ratio outside `[0.25, 4.0]` AND **both** dimensions below the
65-pixel threshold.  (Stated from the spec's words, to be compared with
`detect_false_positives`, which is stated from the source.) -/
def claimed_false_positive (b : Box) : Prop :=
  b.xmin.isnan = true ∨ b.ymin.isnan = true ∨ b.xmax.isnan = true ∨ b.ymax.isnan = true ∨
  b.xmax.toRat - b.xmin.toRat ≤ 0 ∨ b.ymax.toRat - b.ymin.toRat ≤ 0 ∨
  (((b.xmax.toRat - b.xmin.toRat) / (b.ymax.toRat - b.ymin.toRat) < 1/4 ∨
    4 < (b.xmax.toRat - b.xmin.toRat) / (b.ymax.toRat - b.ymin.toRat)) ∧
   (b.xmax.toRat - b.xmin.toRat < 65 ∧ b.ymax.toRat - b.ymin.toRat < 65))

/-! ### Interval merging (group_and_save_clips, find_birds.py lines 236-251) -/

/-- The body of the `for t in timestamps[1:]` loop of `group_and_save_clips`
(find_birds.py, lines 244-251), with the current open interval `(start, e)`:
if `t - e <= min_gap` the open interval's end is extended to
`min(duration, t + post_buffer)`; otherwise `(start, e)` is closed and a new
interval is opened as `(max 0 (t - pre_buffer), min duration (t + post_buffer))`.
After the loop the still-open interval is appended. -/
def mergeLoop (duration preBuffer postBuffer minGap : ℚ) :
    List ℚ → ℚ → ℚ → List (ℚ × ℚ)
  | [], start, e => [(start, e)]
  | t :: ts, start, e =>
    if t - e ≤ minGap then
      mergeLoop duration preBuffer postBuffer minGap ts start (min duration (t + postBuffer))
    else
      (start, e) ::
        mergeLoop duration preBuffer postBuffer minGap ts
          (max 0 (t - preBuffer)) (min duration (t + postBuffer))

/-- The `merged_intervals` list computed by `group_and_save_clips`
(find_birds.py, lines 236-251) from the sorted timestamp list: empty input
yields no intervals (the function returns early); otherwise the first interval
is seeded from the first timestamp and the loop `mergeLoop` processes the
rest. -/
def merged_intervals (duration preBuffer postBuffer minGap : ℚ) :
    List ℚ → List (ℚ × ℚ)
  | [] => []
  | t0 :: ts =>
    mergeLoop duration preBuffer postBuffer minGap ts
      (max 0 (t0 - preBuffer)) (min duration (t0 + postBuffer))

/-! ### Clip saving (group_and_save_clips, find_birds.py lines 253-269) -/

/-- Zero-padded rendering of a natural number to (at least) four digits, as
Python's format `{n:04d}` produces for nonnegative `n`. -/
def pad4 (n : ℕ) : String :=
  String.mk (List.replicate (4 - (Nat.repr n).length) '0') ++ Nat.repr n

/-- The deterministic clip file name
`f"{video_path.stem}_clip_{int(s):04d}.mp4"` (find_birds.py, line 262) for a
merged interval starting at `s`.  All interval starts are nonnegative (they
are of the form `max 0 _`), so `int(s)` is `⌊s⌋`. -/
def clipName (stem : String) (s : ℚ) : String :=
  stem ++ "_clip_" ++ pad4 (pyInt s).toNat ++ ".mp4"

/-- One step of the subclip-saving loop: either the target file already exists
and is skipped (with a log line), or the subclip is written. -/
inductive ClipAction where
  | skip (file : String) : ClipAction
  | write (file : String) : ClipAction
deriving DecidableEq

/-- The `for i, (s, e) in enumerate(merged_intervals)` loop of
`group_and_save_clips` (find_birds.py, lines 253-269): for each interval the
target name is computed; if it already exists on the filesystem the interval
is skipped (`continue`) without any write; otherwise the subclip is written
(which makes the file exist for the rest of the loop).  Returns the action
trace and the final set of files. -/
def save_clips (stem : String) (fs : List String) :
    List (ℚ × ℚ) → List ClipAction × List String
  | [] => ([], fs)
  | (s, _e) :: rest =>
    let f := clipName stem s
    if f ∈ fs then
      let r := save_clips stem fs rest
      (ClipAction.skip f :: r.1, r.2)
    else
      let r := save_clips stem (f :: fs) rest
      (ClipAction.write f :: r.1, r.2)

/-- `group_and_save_clips` (find_birds.py, lines 221-271): sorts the
timestamps, merges them into intervals, and runs the saving loop over the
resulting intervals. -/
def group_and_save_clips (duration : ℚ) (stem : String) (fs : List String)
    (timestamps : List ℚ) (preBuffer postBuffer minGap : ℚ) :
    List (ℚ × ℚ) × List ClipAction × List String :=
  let ivs := merged_intervals duration preBuffer postBuffer minGap
    (timestamps.mergeSort (· ≤ ·))
  (ivs, save_clips stem fs ivs)

/-! ### combine_clips_ffmpeg (find_birds.py, lines 273-326) -/

/-- Environment describing the outcome of the external steps of one
`combine_clips_ffmpeg` output iteration: whether the clips directory exists
and is a directory, whether any `*.mp4` clips were found, whether the ffmpeg
concat subprocess raises `ffmpeg.Error`, and — when it raises — whether a
partially written combined output file was left on disk by ffmpeg. -/
structure CombineEnv where
  clipsDirOk : Bool
  clipsFound : Bool
  ffmpegRaises : Bool
  partialWritten : Bool
deriving DecidableEq

/-- State after `combine_clips_ffmpeg` returns (or raises): whether the error
was propagated (`raise` in the `except` handler), whether the combined output
file exists, and whether the temporary `file_list.txt` exists. -/
structure CombineResult where
  raised : Bool
  outputExists : Bool
  fileListExists : Bool
deriving DecidableEq

/-- Shallow embedding of `combine_clips_ffmpeg` (find_birds.py, lines
273-326).  Early returns (missing directory, no clips) neither raise nor
produce output.  Otherwise `file_list.txt` is written and ffmpeg is run inside
`try ... except ffmpeg.Error: raise ... finally: file_list_path.unlink()`:
on `ffmpeg.Error` the error is re-raised and only the temporary file list is
deleted — a partially written combined output is left in place. -/
def combine_clips_ffmpeg (env : CombineEnv) : CombineResult :=
  if env.clipsDirOk = false then
    { raised := false, outputExists := false, fileListExists := false }
  else if env.clipsFound = false then
    { raised := false, outputExists := false, fileListExists := false }
  else if env.ffmpegRaises = true then
    { raised := true, outputExists := env.partialWritten, fileListExists := false }
  else
    { raised := false, outputExists := true, fileListExists := false }

/-! ### Daily aggregation, continuous pipeline
(birdcam_continuous_pipeline.py, lines 240-278 and 476-525) -/

/-- Events performed by `BirdcamProcessor.process_daily_combined_file`. -/
inductive DailyEvent where
  | syncFiles : DailyEvent
  | combineClips : DailyEvent
  | unlinkPartial : DailyEvent
  | recordRun : DailyEvent
deriving DecidableEq

/-- Environment of one `process_daily_combined_file` call: the outcome of the
`combine_clips_ffmpeg` call, and whether the AM / PM combined artifacts exist
on disk after that call returns normally. -/
structure DailyEnv where
  combine : CombineEnv
  amExistsAfter : Bool
  pmExistsAfter : Bool
deriving DecidableEq

/-- Result of `process_daily_combined_file`: the event trace, whether
`record_daily_run` was executed, whether the AM / PM artifacts exist at
return, and whether the function returned the combined-file list (as opposed
to `None`). -/
structure DailyResult where
  events : List DailyEvent
  recorded : Bool
  amExists : Bool
  pmExists : Bool
  returnedFiles : Bool
deriving DecidableEq

/-- Shallow embedding of `BirdcamProcessor.process_daily_combined_file`
(birdcam_continuous_pipeline.py, lines 240-278): sync the archived clips,
run `combine_clips_ffmpeg` for the AM and PM outputs; if it raises, the
`except` handler unlinks whichever combined files exist and returns `None`
without recording anything; otherwise `record_daily_run` is executed iff
`any(combined_file.exists() ...)` holds, and only then is the file list
returned. -/
def process_daily_combined_file (env : DailyEnv) : DailyResult :=
  let c := combine_clips_ffmpeg env.combine
  if c.raised = true then
    { events := [DailyEvent.syncFiles, DailyEvent.combineClips, DailyEvent.unlinkPartial],
      recorded := false, amExists := false, pmExists := false, returnedFiles := false }
  else if env.amExistsAfter = true ∨ env.pmExistsAfter = true then
    { events := [DailyEvent.syncFiles, DailyEvent.combineClips, DailyEvent.recordRun],
      recorded := true, amExists := env.amExistsAfter, pmExists := env.pmExistsAfter,
      returnedFiles := true }
  else
    { events := [DailyEvent.syncFiles, DailyEvent.combineClips],
      recorded := false, amExists := env.amExistsAfter, pmExists := env.pmExistsAfter,
      returnedFiles := false }

/-- Environment of one `process_and_upload_daily_combined_file` call: the
current hour (`dt.now().hour`), whether the catalog already holds a
`daily_runs` record for the day (`has_daily_run`), and the environment of the
inner `process_daily_combined_file` call. -/
structure UploadDailyEnv where
  nowHour : ℕ
  hasDailyRun : Bool
  daily : DailyEnv
deriving DecidableEq

/-- Result of `process_and_upload_daily_combined_file`: the aggregation event
trace and whether the run record was written.  (The subsequent per-file
YouTube upload loop is an external publication effect outside the claims
modelled here.) -/
structure UploadDailyResult where
  events : List DailyEvent
  recorded : Bool
deriving DecidableEq

/-- Shallow embedding of the gating logic of
`BirdcamProcessor.process_and_upload_daily_combined_file`
(birdcam_continuous_pipeline.py, lines 476-486): nothing runs before
`process_hour`; if `has_daily_run(day)` holds, the call only logs and performs
no aggregation work at all; otherwise `process_daily_combined_file` runs. -/
def process_and_upload_daily_combined_file (processHour : ℕ)
    (env : UploadDailyEnv) : UploadDailyResult :=
  if processHour ≤ env.nowHour then
    if env.hasDailyRun = true then
      { events := [], recorded := false }
    else
      let r := process_daily_combined_file env.daily
      { events := r.events, recorded := r.recorded }
  else
    { events := [], recorded := false }

/-! ### Daily aggregation, incremental processor
(birdcam_incremental_processor.py, lines 119-161, calling
birdcam_pipeline.process_videos_from_day) -/

/-- Environment of one `process_videos_from_day` call (birdcam_pipeline.py,
lines 21-84): whether the day's combined file already exists, whether probing
it succeeds and reports a nonzero duration, whether any source videos /
annotated videos are found, and whether the final clip-combination step
raises (leaving, possibly, a partial combined file). -/
structure PvdEnv where
  combinedPreexists : Bool
  combinedProbeOk : Bool
  combinedNonzero : Bool
  videoFilesFound : Bool
  annotatedFound : Bool
  combineRaises : Bool
  partialCombined : Bool
deriving DecidableEq

/-- Result of `process_videos_from_day`: whether it raised, and whether the
day's combined artifact exists when it returns. -/
structure PvdResult where
  raised : Bool
  combinedExists : Bool
deriving DecidableEq

/-- The processing part of `process_videos_from_day` (birdcam_pipeline.py,
lines 55-84), reached when no valid combined file pre-exists: if no source
videos are found, or no annotated videos are produced, the function returns
early **without creating any combined file**; otherwise the clips are
combined, which either succeeds or raises. -/
def pvdProcess (env : PvdEnv) : PvdResult :=
  if env.videoFilesFound = false then
    { raised := false, combinedExists := false }
  else if env.annotatedFound = false then
    { raised := false, combinedExists := false }
  else if env.combineRaises = true then
    { raised := true, combinedExists := env.partialCombined }
  else
    { raised := false, combinedExists := true }

/-- Shallow embedding of `process_videos_from_day` (birdcam_pipeline.py,
lines 21-84): a pre-existing combined file that probes as valid and nonzero
causes an early return with the artifact kept; an empty or unprobeable
pre-existing file is unlinked and processing proceeds as in `pvdProcess`. -/
def process_videos_from_day (env : PvdEnv) : PvdResult :=
  if env.combinedPreexists = true then
    if env.combinedProbeOk = false then pvdProcess env
    else if env.combinedNonzero = false then pvdProcess env
    else { raised := false, combinedExists := true }
  else pvdProcess env

/-- Events performed by the incremental processor's
`process_daily_combined_file`. -/
inductive IncDailyEvent where
  | processVideos : IncDailyEvent
  | archiveCopy : IncDailyEvent
  | recordRun : IncDailyEvent
deriving DecidableEq

/-- Environment of one incremental `process_daily_combined_file` call: the
current hour, whether `has_daily_run(yesterday)` holds, the environment of
the `process_videos_from_day` call, and whether the archive copy raises. -/
structure IncDailyEnv where
  nowHour : ℕ
  hasDailyRun : Bool
  pvd : PvdEnv
  archiveCopyRaises : Bool
deriving DecidableEq

/-- Result of the incremental `process_daily_combined_file`: event trace,
whether `record_daily_run` was executed, and whether the day's combined
artifact exists at return. -/
structure IncDailyResult where
  events : List IncDailyEvent
  recorded : Bool
  combinedExists : Bool
deriving DecidableEq

/-- The call of `process_videos_from_day` as written at the incremental
processor's call site (birdcam_incremental_processor.py, lines 137-143): it
passes the keyword arguments `output_rate=2` and `confidence_threshold=0.3`,
which the callee's signature `process_videos_from_day(date, video_path,
output_path)` (birdcam_pipeline.py, line 21) does not accept.  Python
therefore raises `TypeError` at argument binding, before the callee body
(embedded above as `process_videos_from_day`) ever runs — on every call,
whatever the environment. -/
def process_videos_from_day_call (_env : PvdEnv) : Except String PvdResult :=
  Except.error "TypeError: process_videos_from_day() got an unexpected keyword argument"

/-- Shallow embedding of `BirdcamProcessor.process_daily_combined_file` of
the incremental processor (birdcam_incremental_processor.py, lines 119-161):
return before 3am; return if the daily run record already exists; otherwise
attempt the `process_videos_from_day` call inside `try/except Exception`
(returning on error — and the call as written always raises `TypeError`, see
`process_videos_from_day_call`, so the filesystem is untouched); then copy
the processed files to the archive (returning on error), and finally
`record_daily_run`.  The post-call code is kept in the embedding exactly as
in the source, though the always-raising call makes it unreachable. -/
def inc_process_daily_combined_file (env : IncDailyEnv) : IncDailyResult :=
  if env.nowHour < 3 then
    { events := [], recorded := false, combinedExists := env.pvd.combinedPreexists }
  else if env.hasDailyRun = true then
    { events := [], recorded := false, combinedExists := env.pvd.combinedPreexists }
  else
    match process_videos_from_day_call env.pvd with
    | Except.error _ =>
      { events := [IncDailyEvent.processVideos], recorded := false,
        combinedExists := env.pvd.combinedPreexists }
    | Except.ok r =>
      if env.archiveCopyRaises = true then
        { events := [IncDailyEvent.processVideos, IncDailyEvent.archiveCopy],
          recorded := false, combinedExists := r.combinedExists }
      else
        { events := [IncDailyEvent.processVideos, IncDailyEvent.archiveCopy,
                     IncDailyEvent.recordRun],
          recorded := true, combinedExists := r.combinedExists }

/-! ### Per-file processing
(birdcam_pipeline_single.py lines 20-62, birdcam_continuous_pipeline.py lines
189-210, birdcam_incremental_processor.py lines 100-117) -/

/-- Outcome of the external steps of one `process_single_video` call:
the ffmpeg probe raises; the probe reports duration `'0'`; a later processing
step (clip generation / annotation) raises; or everything succeeds. -/
inductive SingleEnv where
  | probeRaises : SingleEnv
  | zeroDuration : SingleEnv
  | stepsRaise : SingleEnv
  | succeeds : SingleEnv
deriving DecidableEq

/-- Shallow embedding of `process_single_video` (birdcam_pipeline_single.py,
lines 20-62): a probe error is re-raised to the caller; a probed duration of
`'0'` returns `None` (no exception); otherwise processing either raises or
returns the output directory. -/
def process_single_video : SingleEnv → Except String (Option String)
  | SingleEnv.probeRaises => Except.error "ffmpeg probe error"
  | SingleEnv.zeroDuration => Except.ok none
  | SingleEnv.stepsRaise => Except.error "processing error"
  | SingleEnv.succeeds => Except.ok (some "date_path")

/-- The status that `BirdcamProcessor.process_new_files` of the continuous
pipeline (birdcam_continuous_pipeline.py, lines 189-210) records for one
staged file: `"failed"` when `process_single_video` raises, `"failed"` when
it returns `None` (zero-duration input), `"processed"` otherwise. -/
def statusAfterProcessing (e : SingleEnv) : String :=
  match process_single_video e with
  | Except.error _ => "failed"
  | Except.ok none => "failed"
  | Except.ok (some _) => "processed"

/-- `process_new_files` (birdcam_continuous_pipeline.py, lines 189-210) over
its list of staged files with their per-file outcomes: every file is
processed in turn and gets a recorded status; a failure never stops the
loop. -/
def process_new_files (files : List (String × SingleEnv)) :
    List (String × String) :=
  files.map (fun fe => (fe.1, statusAfterProcessing fe.2))

/-- The status that the incremental processor's `process_files`
(birdcam_incremental_processor.py, lines 100-117) records for one staged
file: `"failed"` only when `process_single_video` raises; the return value is
otherwise ignored, so both `None` (zero-duration) and a normal return are
recorded as `"processed"`. -/
def inc_statusAfterProcessing (e : SingleEnv) : String :=
  match process_single_video e with
  | Except.error _ => "failed"
  | Except.ok _ => "processed"

/-- The incremental processor's `process_files` loop over its staged files. -/
def inc_process_files (files : List (String × SingleEnv)) :
    List (String × String) :=
  files.map (fun fe => (fe.1, inc_statusAfterProcessing fe.2))

/-! ### Frame-index computation of extract_frames
(find_birds.py, lines 25-53) -/

/-- Ascending evaluation of Python's `range(cur, stop, step)` for positive
`step`, with fuel bounding the number of elements. -/
def rangeAscAux (step : ℤ) : ℕ → ℤ → ℤ → List ℤ
  | 0, _, _ => []
  | fuel + 1, cur, stop =>
    if cur < stop then cur :: rangeAscAux step fuel (cur + step) stop else []

/-- Descending evaluation of Python's `range(cur, stop, step)` for negative
`step`. -/
def rangeDescAux (step : ℤ) : ℕ → ℤ → ℤ → List ℤ
  | 0, _, _ => []
  | fuel + 1, cur, stop =>
    if stop < cur then cur :: rangeDescAux step fuel (cur + step) stop else []

/-- Python's `list(range(start, stop, step))`: raises `ValueError` when
`step = 0`. -/
def pyRange (start stop step : ℤ) : Except String (List ℤ) :=
  if step = 0 then
    Except.error "ValueError: range() arg 3 must not be zero"
  else if 0 < step then
    Except.ok (rangeAscAux step (stop - start).toNat start stop)
  else
    Except.ok (rangeDescAux step (start - stop).toNat start stop)

/-- The frame-index computation of `extract_frames` (find_birds.py, lines
36-43): `frame_interval = int(fps * output_rate)`;
`frames = list(range(0, total_frames, frame_interval))`; then
`if frames[-1] != total_frames - 1: frames.append(total_frames - 1)`.
Python's `range` raises `ValueError` on a zero step (an unopenable source has
`fps = 0`), and `frames[-1]` raises `IndexError` on an empty list (a source
with zero frames). -/
def frame_indices (fps outputRate : ℚ) (totalFrames : ℤ) :
    Except String (List ℤ) :=
  match pyRange 0 totalFrames (pyInt (fps * outputRate)) with
  | Except.error e => Except.error e
  | Except.ok frames =>
    match frames.getLast? with
    | none => Except.error "IndexError: list index out of range"
    | some last =>
      Except.ok (if last ≠ totalFrames - 1 then frames ++ [totalFrames - 1] else frames)

/-! ### Publish-delay counter
(birdcam_continuous_pipeline.py, lines 402-473) -/

/-- `sqlite3` cursor `fetchone` on the remaining result rows: returns the
next row (or `None`) and the rows left after it. -/
def fetchone (rows : List ℤ) : Option ℤ × List ℤ :=
  match rows with
  | [] => (none, [])
  | r :: rs => (some r, rs)

/-- The delay-time read of `process_and_upload_hourly_combined_file`
(birdcam_continuous_pipeline.py, lines 430-439), applied to the result rows
of `SELECT delay_time FROM publish_delay WHERE id = 1`: the code calls
`fetchone()` once to test for `None`; when a row was present it calls
`fetchone()` **again** to read `delay_time`, on a cursor whose single row has
already been consumed, and subscripts the result. -/
def get_publish_delay_time (rows : List ℤ) : Except String ℤ :=
  match fetchone rows with
  | (none, _) => Except.ok 0
  | (some _, rest) =>
    match (fetchone rest).1 with
    | none => Except.error "TypeError: NoneType object is not subscriptable"
    | some d => Except.ok d

/-- The deferred-publication branch of
`process_and_upload_hourly_combined_file` (birdcam_continuous_pipeline.py,
lines 427-449) acting on the `publish_delay` table (given as the result rows
of the id-1 select): read the delay time (initializing the row to 0 when
absent), schedule the publish at the 18:00 target plus that many seconds, and
update the stored delay to one more.  Returns the delay used and the table's
single row afterwards. -/
def deferred_publish_step (rows : List ℤ) : Except String (ℤ × List ℤ) :=
  match get_publish_delay_time rows with
  | Except.error e => Except.error e
  | Except.ok d => Except.ok (d, [d + 1])

/-! ## Theorems -/

/-- Invariant of the merging loop: starting from an open interval
`(start, e)` with `0 ≤ start ≤ e ≤ duration`, a sorted in-bounds remainder of
timestamps all `≥ start` and all with `e ≤ t + post_buffer`, and buffers with
`0 ≤ pre_buffer ≤ min_gap` and `0 ≤ post_buffer`, the loop produces a list
whose head starts at `start` with an end `≥ e`, whose intervals are pairwise
strictly separated, valid and within `[0, duration]`, all start at or after
`start`, and which covers every remaining timestamp. -/
theorem mergeLoop_spec (D Bp Bf G : ℚ) (hBp : 0 ≤ Bp) (hBf : 0 ≤ Bf) (hBpG : Bp ≤ G)
    (ts : List ℚ) :
    ∀ start e : ℚ,
      ts.Sorted (· ≤ ·) →
      (∀ t ∈ ts, 0 ≤ t ∧ t ≤ D) →
      0 ≤ start → start ≤ e → e ≤ D →
      (∀ t ∈ ts, e ≤ t + Bf) →
      (∀ t ∈ ts, start ≤ t) →
      (∃ e₂ tl, mergeLoop D Bp Bf G ts start e = (start, e₂) :: tl ∧ e ≤ e₂) ∧
      List.Pairwise (fun a b : ℚ × ℚ => a.2 < b.1) (mergeLoop D Bp Bf G ts start e) ∧
      (∀ iv ∈ mergeLoop D Bp Bf G ts start e, 0 ≤ iv.1 ∧ iv.1 ≤ iv.2 ∧ iv.2 ≤ D) ∧
      (∀ iv ∈ mergeLoop D Bp Bf G ts start e, start ≤ iv.1) ∧
      (∀ t ∈ ts, ∃ iv ∈ mergeLoop D Bp Bf G ts start e, iv.1 ≤ t ∧ t ≤ iv.2) := by
  induction ts with
  | nil =>
    intro start e _ _ h0s hse heD _ _
    refine ⟨⟨e, [], rfl, le_refl e⟩, ?_, ?_, ?_, ?_⟩
    · simp [mergeLoop]
    · intro iv hiv
      simp only [mergeLoop, List.mem_singleton] at hiv
      subst hiv
      exact ⟨h0s, hse, heD⟩
    · intro iv hiv
      simp only [mergeLoop, List.mem_singleton] at hiv
      subst hiv
      exact le_refl start
    · intro t ht
      simp at ht
  | cons t ts ih =>
    intro start e hsorted hbounds h0s hse heD hfut hsfut
    have hsorted' : ts.Sorted (· ≤ ·) := hsorted.of_cons
    have htts : ∀ u ∈ ts, t ≤ u := fun u hu => (List.sorted_cons.mp hsorted).1 u hu
    have ht0 : 0 ≤ t := (hbounds t (List.mem_cons_self t ts)).1
    have htD : t ≤ D := (hbounds t (List.mem_cons_self t ts)).2
    have hbounds' : ∀ u ∈ ts, 0 ≤ u ∧ u ≤ D :=
      fun u hu => hbounds u (List.mem_cons.mpr (Or.inr hu))
    have hte' : t ≤ min D (t + Bf) := le_min htD (le_add_of_nonneg_right hBf)
    have he'D : min D (t + Bf) ≤ D := min_le_left _ _
    have hfut' : ∀ u ∈ ts, min D (t + Bf) ≤ u + Bf := fun u hu =>
      le_trans (min_le_right _ _) (add_le_add_right (htts u hu) Bf)
    by_cases hmerge : t - e ≤ G
    · -- merge branch: the open interval's end is extended
      have heq : mergeLoop D Bp Bf G (t :: ts) start e
          = mergeLoop D Bp Bf G ts start (min D (t + Bf)) := by
        simp [mergeLoop, hmerge]
      have hee' : e ≤ min D (t + Bf) := le_min heD (hfut t (List.mem_cons_self t ts))
      have hse' : start ≤ min D (t + Bf) := le_trans hse hee'
      have hsfut' : ∀ u ∈ ts, start ≤ u :=
        fun u hu => hsfut u (List.mem_cons.mpr (Or.inr hu))
      obtain ⟨⟨e₂, tl, hr, he₂⟩, hpw, hivb, hsiv, hcov⟩ :=
        ih start (min D (t + Bf)) hsorted' hbounds' h0s hse' he'D hfut' hsfut'
      rw [heq]
      refine ⟨⟨e₂, tl, hr, le_trans hee' he₂⟩, hpw, hivb, hsiv, ?_⟩
      intro u hu
      rcases List.mem_cons.mp hu with rfl | hu'
      · exact ⟨(start, e₂), by rw [hr]; exact List.mem_cons_self _ _,
          hsfut u (List.mem_cons_self u ts), le_trans hte' he₂⟩
      · exact hcov u hu'
    · -- close branch: (start, e) is emitted and a new interval is opened
      have hcond : ¬ (t - e ≤ G) := hmerge
      push_neg at hmerge
      have heq : mergeLoop D Bp Bf G (t :: ts) start e
          = (start, e) :: mergeLoop D Bp Bf G ts (max 0 (t - Bp)) (min D (t + Bf)) := by
        simp [mergeLoop, hcond]
      have h0s' : 0 ≤ max 0 (t - Bp) := le_max_left _ _
      have hs'e' : max 0 (t - Bp) ≤ min D (t + Bf) :=
        max_le (le_trans ht0 hte') (le_trans (sub_le_self t hBp) hte')
      have hsfut' : ∀ u ∈ ts, max 0 (t - Bp) ≤ u := fun u hu =>
        max_le (hbounds' u hu).1 (le_trans (sub_le_self t hBp) (htts u hu))
      obtain ⟨⟨e₂, tl, hr, he₂⟩, hpw, hivb, hsiv, hcov⟩ :=
        ih (max 0 (t - Bp)) (min D (t + Bf)) hsorted' hbounds' h0s' hs'e' he'D hfut' hsfut'
      have hes' : e < max 0 (t - Bp) :=
        lt_of_lt_of_le (by linarith) (le_max_right 0 (t - Bp))
      rw [heq]
      refine ⟨⟨e, _, rfl, le_refl e⟩, ?_, ?_, ?_, ?_⟩
      · refine List.pairwise_cons.mpr ⟨?_, hpw⟩
        intro iv hiv
        exact lt_of_lt_of_le hes' (hsiv iv hiv)
      · intro iv hiv
        rcases List.mem_cons.mp hiv with rfl | hiv'
        · exact ⟨h0s, hse, heD⟩
        · exact hivb iv hiv'
      · intro iv hiv
        rcases List.mem_cons.mp hiv with rfl | hiv'
        · exact le_refl start
        · exact le_trans (le_trans hse (le_of_lt hes')) (hsiv iv hiv')
      · intro u hu
        rcases List.mem_cons.mp hu with rfl | hu'
        · refine ⟨(max 0 (u - Bp), e₂),
            by rw [hr]; exact List.mem_cons.mpr (Or.inr (List.mem_cons_self _ _)), ?_, ?_⟩
          · exact max_le (hbounds u (List.mem_cons_self u ts)).1 (sub_le_self u hBp)
          · exact le_trans hte' he₂
        · obtain ⟨iv, hiv, hl, hr2⟩ := hcov u hu'
          exact ⟨iv, List.mem_cons.mpr (Or.inr hiv), hl, hr2⟩

/-- C2 (amended): for every sorted list of timestamps within `[0, D]` and
buffers `0 ≤ Bp`, `0 ≤ Bf`, `0 ≤ G` with additionally `Bp ≤ G` (satisfied by
the defaults `Bp = Bf = G = 10`), the merged intervals of
`group_and_save_clips` are sorted and pairwise strictly non-overlapping
(each interval's end lies strictly before the next interval's start), every
interval is valid and within `[0, D]`, and every input timestamp falls within
exactly one output interval.  (Without `Bp ≤ G` the claim fails, see the
counterexample.) -/
theorem C2_merge_invariants (D Bp Bf G : ℚ) (ts : List ℚ)
    (hBp : 0 ≤ Bp) (hBf : 0 ≤ Bf) (hG : 0 ≤ G) (hBpG : Bp ≤ G)
    (hsorted : ts.Sorted (· ≤ ·))
    (hbounds : ∀ t ∈ ts, 0 ≤ t ∧ t ≤ D) :
    List.Pairwise (fun a b : ℚ × ℚ => a.2 < b.1) (merged_intervals D Bp Bf G ts) ∧
    (∀ iv ∈ merged_intervals D Bp Bf G ts, 0 ≤ iv.1 ∧ iv.1 ≤ iv.2 ∧ iv.2 ≤ D) ∧
    (∀ t ∈ ts, ∃! iv : ℚ × ℚ,
        iv ∈ merged_intervals D Bp Bf G ts ∧ iv.1 ≤ t ∧ t ≤ iv.2) := by
  cases ts with
  | nil =>
    refine ⟨by simp [merged_intervals], by simp [merged_intervals], by simp⟩
  | cons t0 ts' =>
    have hmi : merged_intervals D Bp Bf G (t0 :: ts')
        = mergeLoop D Bp Bf G ts' (max 0 (t0 - Bp)) (min D (t0 + Bf)) := rfl
    have ht00 : 0 ≤ t0 := (hbounds t0 (List.mem_cons_self t0 ts')).1
    have ht0D : t0 ≤ D := (hbounds t0 (List.mem_cons_self t0 ts')).2
    have ht0e : t0 ≤ min D (t0 + Bf) := le_min ht0D (le_add_of_nonneg_right hBf)
    have hbounds' : ∀ u ∈ ts', 0 ≤ u ∧ u ≤ D :=
      fun u hu => hbounds u (List.mem_cons.mpr (Or.inr hu))
    have htts : ∀ u ∈ ts', t0 ≤ u := fun u hu => (List.sorted_cons.mp hsorted).1 u hu
    obtain ⟨⟨e₂, tl, hr, he₂⟩, hpw, hivb, hsiv, hcov⟩ :=
      mergeLoop_spec D Bp Bf G hBp hBf hBpG ts' (max 0 (t0 - Bp)) (min D (t0 + Bf))
        hsorted.of_cons hbounds'
        (le_max_left _ _)
        (max_le (le_trans ht00 ht0e) (le_trans (sub_le_self t0 hBp) ht0e))
        (min_le_left _ _)
        (fun u hu => le_trans (min_le_right _ _) (add_le_add_right (htts u hu) Bf))
        (fun u hu => max_le (hbounds' u hu).1 (le_trans (sub_le_self t0 hBp) (htts u hu)))
    rw [hmi]
    have hall : ∀ u ∈ t0 :: ts',
        ∃ iv ∈ mergeLoop D Bp Bf G ts' (max 0 (t0 - Bp)) (min D (t0 + Bf)),
          iv.1 ≤ u ∧ u ≤ iv.2 := by
      intro u hu
      rcases List.mem_cons.mp hu with rfl | hu'
      · exact ⟨(max 0 (u - Bp), e₂), by rw [hr]; exact List.mem_cons_self _ _,
          max_le (hbounds u (List.mem_cons_self u ts')).1 (sub_le_self u hBp),
          le_trans ht0e he₂⟩
      · exact hcov u hu'
    refine ⟨hpw, hivb, fun u hu => ?_⟩
    obtain ⟨iv, hiv, hl, hr2⟩ := hall u hu
    refine ⟨iv, ⟨hiv, hl, hr2⟩, ?_⟩
    rintro iv' ⟨hiv', hl', hr2'⟩
    by_contra hne
    have hsymm : Symmetric (fun a b : ℚ × ℚ => a.2 < b.1 ∨ b.2 < a.1) :=
      fun a b h => h.symm
    have hpw2 : List.Pairwise (fun a b : ℚ × ℚ => a.2 < b.1 ∨ b.2 < a.1)
        (mergeLoop D Bp Bf G ts' (max 0 (t0 - Bp)) (min D (t0 + Bf))) :=
      hpw.imp (fun h => Or.inl h)
    rcases hpw2.forall hsymm hiv' hiv hne with h | h
    · linarith
    · linarith

/-- C2 witness: the amended theorem applied at the spec's own example, the
sorted timestamps `[5, 12, 40]` with `Bp = Bf = G = 10` and `D = 100`. -/
theorem C2_witness :
    ((0:ℚ) ≤ 10 ∧ (0:ℚ) ≤ 10 ∧ (10:ℚ) ≤ 10 ∧
      ([5, 12, 40] : List ℚ).Sorted (· ≤ ·) ∧
      (∀ t ∈ ([5, 12, 40] : List ℚ), 0 ≤ t ∧ t ≤ 100)) ∧
    (List.Pairwise (fun a b : ℚ × ℚ => a.2 < b.1)
        (merged_intervals 100 10 10 10 [5, 12, 40]) ∧
     (∀ iv ∈ merged_intervals 100 10 10 10 [5, 12, 40],
        0 ≤ iv.1 ∧ iv.1 ≤ iv.2 ∧ iv.2 ≤ 100) ∧
     (∀ t ∈ ([5, 12, 40] : List ℚ), ∃! iv : ℚ × ℚ,
        iv ∈ merged_intervals 100 10 10 10 [5, 12, 40] ∧ iv.1 ≤ t ∧ t ≤ iv.2)) :=
  ⟨⟨by norm_num, by norm_num, by norm_num,
    by norm_num [List.sorted_cons], by norm_num⟩,
   C2_merge_invariants 100 10 10 10 [5, 12, 40] (by norm_num) (by norm_num)
     (by norm_num) (by norm_num) (by norm_num [List.sorted_cons]) (by norm_num)⟩

/-- C2 counterexample: for the sorted in-bounds timestamps `[10, 25]` with
`Bp = 20 ≥ 0`, `Bf = 0 ≥ 0`, `G = 10 ≥ 0` and `D = 100`, the produced
intervals are `[(0, 10), (5, 25)]`: they overlap (the second starts before
the first ends) and the input timestamp `10` falls within both, so the
claim's conclusion fails although all its stated hypotheses hold. -/
theorem C2_counterexample :
    ((0:ℚ) ≤ 20 ∧ (0:ℚ) ≤ 0 ∧ (0:ℚ) ≤ 10 ∧
      ([10, 25] : List ℚ).Sorted (· ≤ ·) ∧
      (∀ t ∈ ([10, 25] : List ℚ), 0 ≤ t ∧ t ≤ 100)) ∧
    merged_intervals 100 20 0 10 [10, 25] = [(0, 10), (5, 25)] ∧
    ¬ List.Pairwise (fun a b : ℚ × ℚ => a.2 < b.1)
        (merged_intervals 100 20 0 10 [10, 25]) ∧
    ¬ (∃! iv : ℚ × ℚ,
        iv ∈ merged_intervals 100 20 0 10 [10, 25] ∧ iv.1 ≤ 10 ∧ 10 ≤ iv.2) := by
  have hmi : merged_intervals 100 20 0 10 [10, 25] = [(0, 10), (5, 25)] := by
    norm_num [merged_intervals, mergeLoop]
  refine ⟨⟨by norm_num, by norm_num, by norm_num,
    by norm_num [List.sorted_cons], by norm_num⟩, hmi, ?_, ?_⟩
  · rw [hmi]
    intro hpw
    have := (List.pairwise_cons.mp hpw).1 (5, 25) (List.mem_cons_self _ _)
    norm_num at this
  · rintro ⟨iv, _, huniq⟩
    have h1 : ((0 : ℚ), (10 : ℚ)) = iv := by
      refine huniq (0, 10) ⟨?_, by norm_num, by norm_num⟩
      rw [hmi]; exact List.mem_cons_self _ _
    have h2 : ((5 : ℚ), (25 : ℚ)) = iv := by
      refine huniq (5, 25) ⟨?_, by norm_num, by norm_num⟩
      rw [hmi]; exact List.mem_cons.mpr (Or.inr (List.mem_cons_self _ _))
    rw [← h2] at h1
    have := congrArg Prod.fst h1
    norm_num at this

/-- C4: on the spec's example — timestamps `[5, 12, 40]`, `Bp = Bf = 10`,
`G = 10`, `D = 100` — the greedy left-to-right merge of
`group_and_save_clips` produces exactly the intervals `(0, 22)` and
`(30, 50)`, in that order. -/
theorem C4_example_intervals :
    merged_intervals 100 10 10 10 [5, 12, 40] = [(0, 22), (30, 50)] := by
  norm_num [merged_intervals, mergeLoop]

/-- C3 (amended): `detect_false_positives` classifies a box as a false
positive if and only if some coordinate is NaN, or its width or height is
`≤ 0`, or its aspect ratio lies outside `[0.25, 4.0]` and **at least one** of
its width and height is below the 65-pixel threshold.  (The claim's "both
dimensions below 65" reading is refuted by the counterexample: the source
uses `or` between the two dimension tests.) -/
theorem C3_filter_characterization (b : Box) :
    detect_false_positives b = true ↔
      (b.xmin.isnan = true ∨ b.ymin.isnan = true ∨
        b.xmax.isnan = true ∨ b.ymax.isnan = true) ∨
      b.xmax.toRat - b.xmin.toRat ≤ 0 ∨ b.ymax.toRat - b.ymin.toRat ≤ 0 ∨
      (((b.xmax.toRat - b.xmin.toRat) / (b.ymax.toRat - b.ymin.toRat) < 1/4 ∨
        4 < (b.xmax.toRat - b.xmin.toRat) / (b.ymax.toRat - b.ymin.toRat)) ∧
       (b.xmax.toRat - b.xmin.toRat < 65 ∨ b.ymax.toRat - b.ymin.toRat < 65)) := by
  unfold detect_false_positives
  split_ifs with h1 h2 h3 <;> simp_all <;> tauto

/-- C3 counterexample: the finite box `(0, 0, 10, 100)` has aspect ratio
`1/10 < 0.25` with width `10 < 65` but height `100 ≥ 65`, so under the
claim's wording (aspect outside range AND **both** dimensions below 65) it
would be retained — but `detect_false_positives` rejects it. -/
theorem C3_counterexample :
    detect_false_positives
        (Box.mk (PyFloat.val 0) (PyFloat.val 0) (PyFloat.val 10) (PyFloat.val 100))
      = true ∧
    ¬ claimed_false_positive
        (Box.mk (PyFloat.val 0) (PyFloat.val 0) (PyFloat.val 10) (PyFloat.val 100)) := by
  constructor
  · norm_num [detect_false_positives, PyFloat.isnan, PyFloat.toRat]
  · norm_num [claimed_false_positive, PyFloat.isnan, PyFloat.toRat]

/-- C10: a bounding box whose coordinates are all non-NaN and whose width and
height are both at least 65 pixels is never classified as a false positive,
whatever its aspect ratio. -/
theorem C10_large_box_retained (b : Box)
    (h1 : b.xmin.isnan = false) (h2 : b.ymin.isnan = false)
    (h3 : b.xmax.isnan = false) (h4 : b.ymax.isnan = false)
    (hw : 65 ≤ b.xmax.toRat - b.xmin.toRat)
    (hh : 65 ≤ b.ymax.toRat - b.ymin.toRat) :
    detect_false_positives b = false := by
  unfold detect_false_positives
  split_ifs with g1 g2 g3
  · simp_all
  · rcases g2 with g | g <;> linarith
  · rcases g3.2 with g | g <;> linarith
  · rfl

/-- C10 witness: the box `(0, 0, 65, 1000)` (width 65, height 1000, aspect
ratio `0.065`, far outside `[0.25, 4.0]`) is retained. -/
theorem C10_witness :
    ((Box.mk (PyFloat.val 0) (PyFloat.val 0)
        (PyFloat.val 65) (PyFloat.val 1000)).xmin.isnan = false ∧
     (Box.mk (PyFloat.val 0) (PyFloat.val 0)
        (PyFloat.val 65) (PyFloat.val 1000)).ymin.isnan = false ∧
     (Box.mk (PyFloat.val 0) (PyFloat.val 0)
        (PyFloat.val 65) (PyFloat.val 1000)).xmax.isnan = false ∧
     (Box.mk (PyFloat.val 0) (PyFloat.val 0)
        (PyFloat.val 65) (PyFloat.val 1000)).ymax.isnan = false ∧
     (65:ℚ) ≤ (Box.mk (PyFloat.val 0) (PyFloat.val 0)
        (PyFloat.val 65) (PyFloat.val 1000)).xmax.toRat
          - (Box.mk (PyFloat.val 0) (PyFloat.val 0)
        (PyFloat.val 65) (PyFloat.val 1000)).xmin.toRat ∧
     (65:ℚ) ≤ (Box.mk (PyFloat.val 0) (PyFloat.val 0)
        (PyFloat.val 65) (PyFloat.val 1000)).ymax.toRat
          - (Box.mk (PyFloat.val 0) (PyFloat.val 0)
        (PyFloat.val 65) (PyFloat.val 1000)).ymin.toRat) ∧
    detect_false_positives
        (Box.mk (PyFloat.val 0) (PyFloat.val 0) (PyFloat.val 65) (PyFloat.val 1000))
      = false :=
  ⟨⟨rfl, rfl, rfl, rfl,
    by norm_num [PyFloat.toRat], by norm_num [PyFloat.toRat]⟩,
   C10_large_box_retained _ rfl rfl rfl rfl
     (by norm_num [PyFloat.toRat]) (by norm_num [PyFloat.toRat])⟩

/-- Helper: the saving loop emits exactly one action per merged interval:
a failed or skipped interval never stops the loop. -/
theorem save_clips_length (stem : String) :
    ∀ (ivs : List (ℚ × ℚ)) (fs : List String),
      (save_clips stem fs ivs).1.length = ivs.length := by
  intro ivs
  induction ivs with
  | nil => intro fs; rfl
  | cons iv rest ih =>
    intro fs
    obtain ⟨s, e⟩ := iv
    by_cases h : clipName stem s ∈ fs <;>
      simp [save_clips, h, ih]

/-- Helper: the filesystem only grows during the saving loop. -/
theorem save_clips_fs_mono (stem f : String) :
    ∀ (ivs : List (ℚ × ℚ)) (fs : List String),
      f ∈ fs → f ∈ (save_clips stem fs ivs).2 := by
  intro ivs
  induction ivs with
  | nil => intro fs hf; exact hf
  | cons iv rest ih =>
    intro fs hf
    obtain ⟨s, e⟩ := iv
    by_cases h : clipName stem s ∈ fs
    · simpa [save_clips, h] using ih fs hf
    · simpa [save_clips, h] using ih (clipName stem s :: fs) (List.mem_cons.mpr (Or.inr hf))

/-- Helper: a file that already exists when the saving loop starts is never
written by the loop. -/
theorem save_clips_no_rewrite (stem f : String) :
    ∀ (ivs : List (ℚ × ℚ)) (fs : List String),
      f ∈ fs → ClipAction.write f ∉ (save_clips stem fs ivs).1 := by
  intro ivs
  induction ivs with
  | nil => intro fs _ h; simp [save_clips] at h
  | cons iv rest ih =>
    intro fs hf hmem
    obtain ⟨s, e⟩ := iv
    by_cases h : clipName stem s ∈ fs
    · rw [show save_clips stem fs ((s, e) :: rest)
          = (ClipAction.skip (clipName stem s) :: (save_clips stem fs rest).1,
             (save_clips stem fs rest).2) by simp [save_clips, h]] at hmem
      rcases List.mem_cons.mp hmem with heq | hmem'
      · exact ClipAction.noConfusion heq
      · exact ih fs hf hmem'
    · rw [show save_clips stem fs ((s, e) :: rest)
          = (ClipAction.write (clipName stem s)
               :: (save_clips stem (clipName stem s :: fs) rest).1,
             (save_clips stem (clipName stem s :: fs) rest).2) by simp [save_clips, h]] at hmem
      rcases List.mem_cons.mp hmem with heq | hmem'
      · have : clipName stem s = f := by
          injection heq with h'
          exact h'.symm
        exact h (this ▸ hf)
      · exact ih (clipName stem s :: fs) (List.mem_cons.mpr (Or.inr hf)) hmem'

/-- Helper: an interval whose target file already exists when the loop starts
is answered with a skip action (logged as success). -/
theorem save_clips_skip_emitted (stem : String) :
    ∀ (ivs : List (ℚ × ℚ)) (fs : List String) (iv : ℚ × ℚ),
      iv ∈ ivs → clipName stem iv.1 ∈ fs →
      ClipAction.skip (clipName stem iv.1) ∈ (save_clips stem fs ivs).1 := by
  intro ivs
  induction ivs with
  | nil => intro fs iv h; simp at h
  | cons hd rest ih =>
    intro fs iv hmem hex
    obtain ⟨s, e⟩ := hd
    rcases List.mem_cons.mp hmem with rfl | hmem'
    · simp only at hex
      simp [save_clips, hex]
    · by_cases h : clipName stem s ∈ fs
      · have := ih fs iv hmem' hex
        simp [save_clips, h, this]
      · have := ih (clipName stem s :: fs) iv hmem' (List.mem_cons.mpr (Or.inr hex))
        simp [save_clips, h, this]

/-- C5: clip extraction is idempotent.  If the deterministically named target
file of a merged interval already exists, re-running the saving loop of
`group_and_save_clips` emits no write for that file, records the interval as
skipped (treated as success), and still processes every remaining interval
(one action per interval), leaving the existing file in place. -/
theorem C5_clip_idempotent (stem : String) (fs : List String)
    (ivs : List (ℚ × ℚ)) (iv : ℚ × ℚ)
    (hmem : iv ∈ ivs) (hex : clipName stem iv.1 ∈ fs) :
    ClipAction.write (clipName stem iv.1) ∉ (save_clips stem fs ivs).1 ∧
    ClipAction.skip (clipName stem iv.1) ∈ (save_clips stem fs ivs).1 ∧
    (save_clips stem fs ivs).1.length = ivs.length ∧
    clipName stem iv.1 ∈ (save_clips stem fs ivs).2 :=
  ⟨save_clips_no_rewrite stem (clipName stem iv.1) ivs fs hex,
   save_clips_skip_emitted stem ivs fs iv hmem hex,
   save_clips_length stem ivs fs,
   save_clips_fs_mono stem (clipName stem iv.1) ivs fs hex⟩

/-- C5 witness: with both `(0, 22)` and `(30, 50)` target clips already on
disk, re-running the saving loop writes nothing, skips the `(0, 22)` clip,
and still visits both intervals. -/
theorem C5_witness :
    (((0:ℚ), (22:ℚ)) ∈ [((0:ℚ), (22:ℚ)), (30, 50)] ∧
      clipName "video" ((0:ℚ), (22:ℚ)).1
        ∈ [clipName "video" 0, clipName "video" 30]) ∧
    (ClipAction.write (clipName "video" ((0:ℚ), (22:ℚ)).1)
        ∉ (save_clips "video" [clipName "video" 0, clipName "video" 30]
            [((0:ℚ), (22:ℚ)), (30, 50)]).1 ∧
     ClipAction.skip (clipName "video" ((0:ℚ), (22:ℚ)).1)
        ∈ (save_clips "video" [clipName "video" 0, clipName "video" 30]
            [((0:ℚ), (22:ℚ)), (30, 50)]).1 ∧
     (save_clips "video" [clipName "video" 0, clipName "video" 30]
        [((0:ℚ), (22:ℚ)), (30, 50)]).1.length
        = [((0:ℚ), (22:ℚ)), ((30:ℚ), (50:ℚ))].length ∧
     clipName "video" ((0:ℚ), (22:ℚ)).1
        ∈ (save_clips "video" [clipName "video" 0, clipName "video" 30]
            [((0:ℚ), (22:ℚ)), (30, 50)]).2) :=
  ⟨⟨by simp, by simp⟩,
   C5_clip_idempotent "video" [clipName "video" 0, clipName "video" 30]
     [((0:ℚ), (22:ℚ)), (30, 50)] ((0:ℚ), (22:ℚ)) (by simp) (by simp)⟩

/-- C1: daily aggregation is at-most-once per day key.  If a daily run
record for the day already exists, both aggregation entry points (the
continuous pipeline's `process_and_upload_daily_combined_file` and the
incremental processor's `process_daily_combined_file`) perform no aggregation
work at all; in the continuous pipeline `record_daily_run` runs only after at
least one of the day's combined artifacts has been verified to exist (it is
the last event, after sync and combine); and in the incremental processor
`record_daily_run` never executes on any path — its
`process_videos_from_day` call always raises `TypeError` at argument binding
(see `process_videos_from_day_call`) and the `except` handler returns before
the record-writing code — so there too the record is only ever written after
verification (vacuously: it is never written). -/
theorem C1_daily_gating_and_record :
    (∀ (processHour : ℕ) (env : UploadDailyEnv), env.hasDailyRun = true →
        (process_and_upload_daily_combined_file processHour env).events = [] ∧
        (process_and_upload_daily_combined_file processHour env).recorded = false) ∧
    (∀ env : IncDailyEnv, env.hasDailyRun = true →
        (inc_process_daily_combined_file env).events = [] ∧
        (inc_process_daily_combined_file env).recorded = false) ∧
    (∀ env : DailyEnv, (process_daily_combined_file env).recorded = true →
        (env.amExistsAfter = true ∨ env.pmExistsAfter = true) ∧
        (process_daily_combined_file env).events
          = [DailyEvent.syncFiles, DailyEvent.combineClips, DailyEvent.recordRun]) ∧
    (∀ env : IncDailyEnv,
        (inc_process_daily_combined_file env).recorded = false ∧
        IncDailyEvent.recordRun ∉ (inc_process_daily_combined_file env).events) := by
  refine ⟨?_, ?_, ?_, ?_⟩
  · intro ph env h
    by_cases h1 : ph ≤ env.nowHour <;>
      simp [process_and_upload_daily_combined_file, h1, h]
  · intro env h
    by_cases h1 : env.nowHour < 3 <;>
      simp [inc_process_daily_combined_file, h1, h]
  · intro env h
    by_cases h1 : (combine_clips_ffmpeg env.combine).raised = true
    · simp [process_daily_combined_file, h1] at h
    · by_cases h2 : env.amExistsAfter = true ∨ env.pmExistsAfter = true
      · exact ⟨h2, by simp [process_daily_combined_file, h1, h2]⟩
      · simp [process_daily_combined_file, h1, h2] at h
  · intro env
    by_cases h1 : env.nowHour < 3 <;> by_cases h2 : env.hasDailyRun = true <;>
      simp [inc_process_daily_combined_file, process_videos_from_day_call, h1, h2]

/-- C1 witness: the theorem applied to a concrete already-recorded day in
each entry point (no aggregation events) and to a concrete successful
continuous aggregation (the AM artifact exists, so the run is recorded after
sync and combine). -/
theorem C1_witness :
    ((UploadDailyEnv.mk 3 true
        (DailyEnv.mk (CombineEnv.mk true true false false) true true)).hasDailyRun
        = true ∧
     (process_and_upload_daily_combined_file 3
        (UploadDailyEnv.mk 3 true
          (DailyEnv.mk (CombineEnv.mk true true false false) true true))).events
        = [] ∧
     (process_and_upload_daily_combined_file 3
        (UploadDailyEnv.mk 3 true
          (DailyEnv.mk (CombineEnv.mk true true false false) true true))).recorded
        = false) ∧
    ((IncDailyEnv.mk 4 true
        (PvdEnv.mk false true true true true false false) false).hasDailyRun = true ∧
     (inc_process_daily_combined_file
        (IncDailyEnv.mk 4 true
          (PvdEnv.mk false true true true true false false) false)).events = [] ∧
     (inc_process_daily_combined_file
        (IncDailyEnv.mk 4 true
          (PvdEnv.mk false true true true true false false) false)).recorded = false) ∧
    ((process_daily_combined_file
        (DailyEnv.mk (CombineEnv.mk true true false false) true false)).recorded
        = true ∧
     ((DailyEnv.mk (CombineEnv.mk true true false false) true false).amExistsAfter
          = true ∨
       (DailyEnv.mk (CombineEnv.mk true true false false) true false).pmExistsAfter
          = true) ∧
     (process_daily_combined_file
        (DailyEnv.mk (CombineEnv.mk true true false false) true false)).events
        = [DailyEvent.syncFiles, DailyEvent.combineClips, DailyEvent.recordRun]) :=
  ⟨⟨rfl,
    (C1_daily_gating_and_record.1 3
      (UploadDailyEnv.mk 3 true
        (DailyEnv.mk (CombineEnv.mk true true false false) true true)) rfl).1,
    (C1_daily_gating_and_record.1 3
      (UploadDailyEnv.mk 3 true
        (DailyEnv.mk (CombineEnv.mk true true false false) true true)) rfl).2⟩,
   ⟨rfl,
    (C1_daily_gating_and_record.2.1
      (IncDailyEnv.mk 4 true
        (PvdEnv.mk false true true true true false false) false) rfl).1,
    (C1_daily_gating_and_record.2.1
      (IncDailyEnv.mk 4 true
        (PvdEnv.mk false true true true true false false) false) rfl).2⟩,
   ⟨rfl,
    (C1_daily_gating_and_record.2.2.1
      (DailyEnv.mk (CombineEnv.mk true true false false) true false) rfl).1,
    (C1_daily_gating_and_record.2.2.1
      (DailyEnv.mk (CombineEnv.mk true true false false) true false) rfl).2⟩⟩

/-- C6 (amended): when the ffmpeg concat step raises, `combine_clips_ffmpeg`
itself propagates the error and deletes only its temporary file list — any
partially written combined output is left in place by the aggregator; it is
the daily caller `process_daily_combined_file` that, catching the propagated
error, deletes the partial combined outputs before returning `None` (without
recording the run), so no corrupt daily artifact remains to satisfy a later
existence-based check. -/
theorem C6_partial_output_handling :
    (∀ env : CombineEnv, env.clipsDirOk = true → env.clipsFound = true →
        env.ffmpegRaises = true →
        (combine_clips_ffmpeg env).raised = true ∧
        (combine_clips_ffmpeg env).fileListExists = false ∧
        (combine_clips_ffmpeg env).outputExists = env.partialWritten) ∧
    (∀ env : DailyEnv, env.combine.clipsDirOk = true →
        env.combine.clipsFound = true → env.combine.ffmpegRaises = true →
        (process_daily_combined_file env).recorded = false ∧
        (process_daily_combined_file env).amExists = false ∧
        (process_daily_combined_file env).pmExists = false ∧
        (process_daily_combined_file env).returnedFiles = false) := by
  constructor
  · intro env h1 h2 h3
    simp [combine_clips_ffmpeg, h1, h2, h3]
  · intro env h1 h2 h3
    simp [process_daily_combined_file, combine_clips_ffmpeg, h1, h2, h3]

/-- C6 witness: a concrete failing concat with a partially written output:
the aggregator raises and leaves the partial file, and the daily caller
removes both combined outputs and records nothing. -/
theorem C6_witness :
    ((CombineEnv.mk true true true true).clipsDirOk = true ∧
     (CombineEnv.mk true true true true).clipsFound = true ∧
     (CombineEnv.mk true true true true).ffmpegRaises = true ∧
     (combine_clips_ffmpeg (CombineEnv.mk true true true true)).raised = true ∧
     (combine_clips_ffmpeg (CombineEnv.mk true true true true)).fileListExists = false ∧
     (combine_clips_ffmpeg (CombineEnv.mk true true true true)).outputExists
        = (CombineEnv.mk true true true true).partialWritten) ∧
    ((process_daily_combined_file
        (DailyEnv.mk (CombineEnv.mk true true true true) true false)).recorded = false ∧
     (process_daily_combined_file
        (DailyEnv.mk (CombineEnv.mk true true true true) true false)).amExists = false ∧
     (process_daily_combined_file
        (DailyEnv.mk (CombineEnv.mk true true true true) true false)).pmExists = false ∧
     (process_daily_combined_file
        (DailyEnv.mk (CombineEnv.mk true true true true) true false)).returnedFiles
        = false) :=
  ⟨⟨rfl, rfl, rfl,
    (C6_partial_output_handling.1 (CombineEnv.mk true true true true) rfl rfl rfl).1,
    (C6_partial_output_handling.1 (CombineEnv.mk true true true true) rfl rfl rfl).2.1,
    (C6_partial_output_handling.1 (CombineEnv.mk true true true true) rfl rfl rfl).2.2⟩,
   C6_partial_output_handling.2
     (DailyEnv.mk (CombineEnv.mk true true true true) true false) rfl rfl rfl⟩

/-- C6 counterexample: when ffmpeg raises having partially written the
combined output, `combine_clips_ffmpeg` (the Clip Aggregator) returns with
the partial output still existing — the aggregator itself does not delete it,
refuting the claim that the Aggregator "deletes any partially written
combined output file before returning". -/
theorem C6_counterexample :
    (combine_clips_ffmpeg (CombineEnv.mk true true true true)).raised = true ∧
    (combine_clips_ffmpeg (CombineEnv.mk true true true true)).outputExists = true :=
  ⟨rfl, rfl⟩

/-- C7 (amended): `process_single_video` answers a zero-duration probed input
by returning `None` without raising, and the continuous pipeline's
`process_new_files` records such a staged file as `failed` (never
`processed`) while continuing with all remaining files.  (The incremental
processor's `process_files` instead records it as `processed`, see the
counterexample.) -/
theorem C7_zero_duration_status :
    process_single_video SingleEnv.zeroDuration = Except.ok none ∧
    statusAfterProcessing SingleEnv.zeroDuration = "failed" ∧
    ∀ (pre post : List (String × SingleEnv)) (f : String),
      process_new_files (pre ++ (f, SingleEnv.zeroDuration) :: post)
        = process_new_files pre ++ (f, "failed") :: process_new_files post := by
  refine ⟨rfl, rfl, ?_⟩
  intro pre post f
  simp [process_new_files, statusAfterProcessing, process_single_video]

/-- C7 counterexample: the incremental processor's `process_files` ignores
the `None` return of `process_single_video`, so a zero-duration staged file
is recorded as `processed`, not `failed`. -/
theorem C7_counterexample :
    inc_process_files [("file", SingleEnv.zeroDuration)] = [("file", "processed")] ∧
    ("processed" : String) ≠ "failed" :=
  ⟨rfl, by decide⟩

/-- C8: the frame-index computation of `extract_frames` does not produce an
empty sequence on degenerate inputs — it crashes.  For an unopenable source
(OpenCV reports `fps = 0` and `total_frames = 0`) the step
`int(fps * output_rate)` is 0 and `range` raises `ValueError`; for an opened
source with zero usable frames (`fps = 30`, `total_frames = 0`) the list
`frames` is empty and `frames[-1]` raises `IndexError`.  On a normal source
(`fps = 30`, `output_rate = 1`, 60 frames) it yields `[0, 30, 59]`,
confirming the embedding against the intended behavior. -/
theorem C8_extract_frames_crash :
    frame_indices 0 1 0 = Except.error "ValueError: range() arg 3 must not be zero" ∧
    frame_indices 30 1 0 = Except.error "IndexError: list index out of range" ∧
    frame_indices 30 1 60 = Except.ok [0, 30, 59] := by
  refine ⟨?_, ?_, ?_⟩
  · norm_num [frame_indices, pyRange, pyInt]
  · norm_num [frame_indices, pyRange, pyInt, rangeAscAux]
  · set_option maxRecDepth 4000 in
    norm_num [frame_indices, pyRange, pyInt, rangeAscAux]

/-- C9: the publish-delay read crashes on every call after the first.  The
first deferred publication finds no `publish_delay` row, initializes it to 0,
uses delay 0 and stores 1; but any later deferred publication finds the row,
and the code's second `fetchone()` on the already-consumed single-row cursor
returns `None`, whose subscripting raises `TypeError` — so two deferred
publications in one pass never receive strictly increasing publish times. -/
theorem C9_publish_delay_crash :
    deferred_publish_step [] = Except.ok (0, [1]) ∧
    ∀ d : ℤ, deferred_publish_step [d]
      = Except.error "TypeError: NoneType object is not subscriptable" :=
  ⟨rfl, fun _ => rfl⟩

end Birdcam
